import Mathlib

/-!
Verification of the Elyterra marketplace backend core: tier-gated visibility,
quota enforcement, and lead/fee locking. Each definition is a shallow embedding
of the corresponding Python function from the repository (services,
repositories, and the policy tables they read). Roles, tiers, statuses and
access levels are untyped strings in the source and are modelled as `String`;
nullable columns become `Option`; Python truthiness (`if x:`) is modelled
explicitly; fee rates are the exact small decimals 5.0 / 4.0 / 3.0 / 0.0,
represented in `ℚ`.
-/

namespace Elyterra

/-- Python truthiness of a string: empty strings are falsy. -/
def strTruthy (s : String) : Bool := s ≠ ""

/-- Python truthiness of an `Optional[str]`: `None` and `""` are falsy. -/
def optStrTruthy : Option String → Bool
  | none => false
  | some s => s ≠ ""

/-- Python truthiness of an `Optional[int]`: `None` and `0` are falsy. -/
def optNatTruthy : Option Nat → Bool
  | none => false
  | some n => n ≠ 0

/-- Python `x or d` for an `Optional[str] x`: `d` when `x` is `None` or empty. -/
def pyOrStr (v : Option String) (d : String) : String :=
  match v with
  | some s => if s = "" then d else s
  | none => d

/-- ASCII lower-casing of one character (the tier and status strings the
policy tables compare are ASCII). -/
def charLower (c : Char) : Char :=
  if 'A' ≤ c ∧ c ≤ 'Z' then Char.ofNat (c.toNat + 32) else c

/-- ASCII upper-casing of one character. -/
def charUpper (c : Char) : Char :=
  if 'a' ≤ c ∧ c ≤ 'z' then Char.ofNat (c.toNat - 32) else c

/-- Python `str.lower()` on the ASCII strings the tables use. -/
def pyLower (s : String) : String := String.mk (s.toList.map charLower)

/-- Python `str.capitalize()`: first character upper-cased, the rest lower-cased. -/
def pyCapitalize (s : String) : String :=
  match s.toList with
  | [] => ""
  | c :: cs => String.mk (charUpper c :: cs.map charLower)

/-- A user row: `role` and `tier` are free-form nullable strings in the schema. -/
structure User where
  id : Nat
  role : String
  tier : Option String
  subscription_status : String
  deriving DecidableEq

/-- A project row (the columns the core logic reads). -/
structure Project where
  id : Nat
  developer_id : Nat
  title : String
  status : String
  access_level : String
  country : String
  city : String
  property_type : String
  total_investment_required : ℚ
  roi_estimate : Option ℚ
  visibility_score : Int
  tags : List String
  created_at : Nat
  published_at : Option Nat
  deriving DecidableEq

/-- A lead row, with the write-once legal evidence fields set at creation. -/
structure Lead where
  id : Nat
  initiator_id : Nat
  recipient_id : Nat
  project_id : Option Nat
  listing_id : Option Nat
  status : String
  origin : String
  first_contact_ip : String
  first_contact_user_agent : Option String
  initiator_tier_locked : String
  recipient_tier_locked : String
  success_fee_rate_locked : ℚ
  deriving DecidableEq

/-- A message row, child of a lead. -/
structure Message where
  id : Nat
  lead_id : Nat
  sender_id : Nat
  content : String
  sent_from_ip : Option String
  sent_at : Nat
  deriving DecidableEq

/-- The entity store: the relational tables plus id/clock generators. -/
structure St where
  users : List User
  projects : List Project
  leads : List Lead
  messages : List Message
  nextProjectId : Nat
  nextLeadId : Nat
  nextMessageId : Nat
  clock : Nat
  deriving DecidableEq

/-- An `HTTPException`: protocol status code plus human detail string. -/
structure ApiError where
  status_code : Nat
  detail : String
  deriving DecidableEq

/-- Decidable equality of service results, so concrete runs can be checked. -/
instance {ε α : Type} [DecidableEq ε] [DecidableEq α] :
    DecidableEq (Except ε α) := fun x y =>
  match x, y with
  | .error a, .error b =>
    if h : a = b then .isTrue (by rw [h])
    else .isFalse (fun hh => h (Except.error.inj hh))
  | .error _, .ok _ => .isFalse (fun hh => Except.noConfusion hh)
  | .ok _, .error _ => .isFalse (fun hh => Except.noConfusion hh)
  | .ok a, .ok b =>
    if h : a = b then .isTrue (by rw [h])
    else .isFalse (fun hh => h (Except.ok.inj hh))

/-- `UserRepository.find_by_id`. -/
def findUserById (s : St) (uid : Nat) : Option User :=
  s.users.find? (fun u => u.id == uid)

/-- `ProjectRepository.find_by_id`. -/
def findProjectById (s : St) (pid : Nat) : Option Project :=
  s.projects.find? (fun p => p.id == pid)

/-- `LeadRepository.find_by_id`. -/
def findLeadById (s : St) (lid : Nat) : Option Lead :=
  s.leads.find? (fun l => l.id == lid)

/-- The row predicate built by `LeadRepository.find_existing_lead`: the
`initiator_id`/`recipient_id` filters are always applied, the `project_id`
and `listing_id` filters only when the argument is truthy (`if project_id:`). -/
def leadTupleFilter (iid rid : Nat) (pid lid : Option Nat) (l : Lead) : Bool :=
  l.initiator_id == iid && l.recipient_id == rid
  && (if optNatTruthy pid then l.project_id == pid else true)
  && (if optNatTruthy lid then l.listing_id == lid else true)

/-- `LeadRepository.find_existing_lead`. -/
def find_existing_lead (leads : List Lead) (iid rid : Nat)
    (pid lid : Option Nat) : Option Lead :=
  leads.find? (leadTupleFilter iid rid pid lid)

/-- `LeadService.TIER_FEE_RATES`: success fee percent by tier key. -/
def TIER_FEE_RATES : List (String × ℚ) :=
  [("launch", 5), ("growth", 4), ("elite", 3),
   ("explorer", 0), ("insider", 0), ("capital partner", 0)]

/-- Python `dict.get(k, d)` over an association list. -/
def dictGetD (d : List (String × ℚ)) (k : String) (dflt : ℚ) : ℚ :=
  match d.find? (fun kv => kv.1 == k) with
  | some kv => kv.2
  | none => dflt

/-- `LeadCreateDTO`. -/
structure LeadCreateDTO where
  recipient_id : Nat
  project_id : Option Nat
  listing_id : Option Nat
  message : Option String
  deriving DecidableEq

/-- `LeadService._create_message_internal` plus `LeadRepository.create_message`. -/
def create_message_internal (s : St) (leadId senderId : Nat) (content : String)
    (ip : Option String) : St × Message :=
  let m : Message :=
    { id := s.nextMessageId, lead_id := leadId, sender_id := senderId,
      content := content, sent_from_ip := ip, sent_at := s.clock }
  ({ s with messages := s.messages ++ [m],
            nextMessageId := s.nextMessageId + 1,
            clock := s.clock + 1 }, m)

/-- The project-validation block of `LeadService.create_lead` (run only when
`data.project_id` is truthy): the project must exist and belong to the recipient. -/
def lead_project_check (s : St) (data : LeadCreateDTO) (recipient : User) :
    Option ApiError :=
  if optNatTruthy data.project_id then
    match findProjectById s (data.project_id.getD 0) with
    | none => some ⟨404, "Project not found"⟩
    | some project =>
      if project.developer_id ≠ recipient.id then
        some ⟨400, "Project does not belong to recipient"⟩
      else none
  else none

/-- The lead record built by the `lead_data` dict in `LeadService.create_lead`. -/
def mkLockedLead (s : St) (data : LeadCreateDTO) (initiator recipient : User)
    (clientIp userAgent : Option String) : Lead :=
  { id := s.nextLeadId,
    initiator_id := initiator.id,
    recipient_id := recipient.id,
    project_id := data.project_id,
    listing_id := data.listing_id,
    status := "active",
    origin := "platform",
    first_contact_ip := clientIp.getD "",
    first_contact_user_agent := userAgent,
    initiator_tier_locked := pyOrStr initiator.tier "explorer",
    recipient_tier_locked := pyOrStr recipient.tier "launch",
    success_fee_rate_locked :=
      dictGetD TIER_FEE_RATES (pyLower (pyOrStr recipient.tier "launch")) 5 }

/-- `LeadService.create_lead`: role check, recipient lookup and role check,
project-ownership check, duplicate check, client-ip check, then the lead insert
with tier/fee locking and the optional opening message. -/
def create_lead (s : St) (data : LeadCreateDTO) (initiator : User)
    (clientIp userAgent : Option String) : Except ApiError (St × Lead) :=
  if ¬ (initiator.role = "investor" ∨ initiator.role = "buyer") then
    .error ⟨403, "Only investors and buyers can initiate leads"⟩
  else
    match findUserById s data.recipient_id with
    | none => .error ⟨404, "Recipient user not found"⟩
    | some recipient =>
      if ¬ (recipient.role = "developer" ∨ recipient.role = "agency") then
        .error ⟨400, "Can only contact developers or agencies"⟩
      else
        match lead_project_check s data recipient with
        | some e => .error e
        | none =>
          match find_existing_lead s.leads initiator.id recipient.id
              data.project_id data.listing_id with
          | some _ =>
            .error ⟨409, "Lead already exists between these users for this project/listing"⟩
          | none =>
            if ¬ optStrTruthy clientIp then
              .error ⟨400, "Unable to determine client IP address"⟩
            else
              let lead := mkLockedLead s data initiator recipient clientIp userAgent
              let s1 : St := { s with leads := s.leads ++ [lead],
                                      nextLeadId := s.nextLeadId + 1 }
              let s2 : St :=
                if optStrTruthy data.message then
                  (create_message_internal s1 lead.id initiator.id
                    (data.message.getD "") clientIp).1
                else s1
              .ok (s2, lead)

/-- `LeadService.get_lead`: 404 when absent, 403 for non-participants. -/
def get_lead (s : St) (leadId : Nat) (user : User) : Except ApiError Lead :=
  match findLeadById s leadId with
  | none => .error ⟨404, "Lead not found"⟩
  | some lead =>
    if lead.initiator_id ≠ user.id ∧ lead.recipient_id ≠ user.id then
      .error ⟨403, "You don\x27t have permission to view this lead"⟩
    else .ok lead

/-- Insertion into a list sorted by a boolean comparison. -/
def insertLe {α : Type} (le : α → α → Bool) (a : α) : List α → List α
  | [] => [a]
  | b :: bs => if le a b then a :: b :: bs else b :: insertLe le a bs

/-- Insertion sort by a boolean comparison; models SQL ORDER BY. -/
def sortByLe {α : Type} (le : α → α → Bool) : List α → List α
  | [] => []
  | a :: as => insertLe le a (sortByLe le as)

/-- `LeadRepository.find_messages_by_lead`: filter by lead, order by send time. -/
def find_messages_by_lead (s : St) (leadId : Nat) : List Message :=
  sortByLe (fun a b => a.sent_at ≤ b.sent_at)
    (s.messages.filter (fun m => m.lead_id == leadId))

/-- `LeadService.get_messages`: 404 when absent, 403 for non-participants. -/
def get_messages (s : St) (leadId : Nat) (user : User) :
    Except ApiError (List Message) :=
  match findLeadById s leadId with
  | none => .error ⟨404, "Lead not found"⟩
  | some lead =>
    if lead.initiator_id ≠ user.id ∧ lead.recipient_id ≠ user.id then
      .error ⟨403, "You don\x27t have permission to view messages in this lead"⟩
    else .ok (find_messages_by_lead s leadId)

/-- `LeadService.send_message`: participant check, then message insert. -/
def send_message (s : St) (leadId : Nat) (sender : User) (content : String)
    (clientIp : Option String) : Except ApiError (St × Message) :=
  match findLeadById s leadId with
  | none => .error ⟨404, "Lead not found"⟩
  | some lead =>
    if lead.initiator_id ≠ sender.id ∧ lead.recipient_id ≠ sender.id then
      .error ⟨403, "You don\x27t have permission to send messages in this lead"⟩
    else .ok (create_message_internal s leadId sender.id content clientIp)

/-- `LeadRepository.update_status`: set the status column of the matching row. -/
def lead_update_status (s : St) (leadId : Nat) (newStatus : String) : St :=
  { s with leads := s.leads.map (fun l =>
      if l.id == leadId then { l with status := newStatus } else l) }

/-- An UPDATE of the users table changing one user tier column (the entity-store
write that a later tier change performs; it touches no lead row). -/
def set_user_tier (s : St) (uid : Nat) (t : Option String) : St :=
  { s with users := s.users.map (fun u =>
      if u.id == uid then { u with tier := t } else u) }

/-- The operations that can run after a lead exists: a lead status update, a
message send, a user tier change, or another lead creation. Errors leave the
store unchanged, as an aborted transaction would. -/
inductive LeadOp where
  | updateStatus (leadId : Nat) (newStatus : String)
  | sendMsg (leadId : Nat) (sender : User) (content : String) (ip : Option String)
  | setTier (uid : Nat) (t : Option String)
  | create (data : LeadCreateDTO) (initiator : User) (ip ua : Option String)

/-- Apply one of the post-creation operations to the store. -/
def applyOp (s : St) : LeadOp → St
  | .updateStatus lid st => lead_update_status s lid st
  | .sendMsg lid sender content ip =>
    match send_message s lid sender content ip with
    | .ok (s2, _) => s2
    | .error _ => s
  | .setTier uid t => set_user_tier s uid t
  | .create data initiator ip ua =>
    match create_lead s data initiator ip ua with
    | .ok (s2, _) => s2
    | .error _ => s

/-- `ProjectService.TIER_QUOTAS`: project quota by developer tier key;
the `elite` value is Python `None` (unlimited). -/
def TIER_QUOTAS : List (String × Option Nat) :=
  [("launch", some 3), ("growth", some 10), ("elite", none)]

/-- `TIER_QUOTAS.get(tier, 3)`: dictionary lookup with default quota 3. -/
def quotaGetD (k : String) : Option Nat :=
  match TIER_QUOTAS.find? (fun kv => kv.1 == k) with
  | some kv => kv.2
  | none => some 3

/-- The quota tier key: `developer.tier.lower() if developer.tier else 'launch'`. -/
def developerEffTier (u : User) : String :=
  if optStrTruthy u.tier then pyLower (u.tier.getD "") else "launch"

/-- `ProjectRepository.count_by_developer` on the default path: rows of the
developer whose status column differs from archived. -/
def count_by_developer (s : St) (developerId : Nat) : Nat :=
  (s.projects.filter (fun p =>
    p.developer_id == developerId && !(p.status == "archived"))).length

/-- The quota-denial detail f-string of `ProjectService._check_project_quota`. -/
def quotaDeniedDetail (tier : String) (quota : Nat) : String :=
  "Project quota exceeded. Your " ++ pyCapitalize tier ++ " tier allows "
    ++ toString quota ++ " projects. Upgrade to create more."

/-- `ProjectService._check_project_quota`: `none` means the check passes. -/
def check_project_quota (s : St) (developer : User) : Option ApiError :=
  let tier := developerEffTier developer
  match quotaGetD tier with
  | none => none
  | some quota =>
    if count_by_developer s developer.id ≥ quota then
      some ⟨403, quotaDeniedDetail tier quota⟩
    else none

/-- `ProjectCreateDTO` (the fields the service writes to the row). -/
structure ProjectCreateDTO where
  title : String
  country : String
  city : String
  property_type : String
  investment_required : ℚ
  roi_estimate : Option ℚ
  access_level : String
  tags : Option (List String)
  deriving DecidableEq

/-- `ProjectService.create_project`: role check, subscription check, quota
check, then insert with status draft and visibility score 0. -/
def create_project (s : St) (developer : User) (data : ProjectCreateDTO) :
    Except ApiError (St × Project) :=
  if developer.role ≠ "developer" then
    .error ⟨403, "Only developers can create projects"⟩
  else if ¬ (developer.subscription_status = "active" ∨
             developer.subscription_status = "trial") then
    .error ⟨402, "Active subscription required to create projects"⟩
  else
    match check_project_quota s developer with
    | some e => .error e
    | none =>
      let project : Project :=
        { id := s.nextProjectId, developer_id := developer.id,
          title := data.title, status := "draft",
          access_level := data.access_level, country := data.country,
          city := data.city, property_type := data.property_type,
          total_investment_required := data.investment_required,
          roi_estimate := data.roi_estimate, visibility_score := 0,
          tags := data.tags.getD [], created_at := s.clock,
          published_at := none }
      .ok ({ s with projects := s.projects ++ [project],
                    nextProjectId := s.nextProjectId + 1,
                    clock := s.clock + 1 }, project)

/-- `ProjectService._get_allowed_access_levels`: anonymous gets public;
admin and any developer get all four levels; investors get a tier-based set
(unmatched tier strings fall through to public). -/
def project_allowed_access_levels (user : Option User) : List String :=
  match user with
  | none => ["public"]
  | some u =>
    if u.role = "admin" then
      ["public", "verified_only", "pre_launch", "investor_only"]
    else if u.role = "developer" then
      ["public", "verified_only", "pre_launch", "investor_only"]
    else if u.role = "investor" then
      let tier := if optStrTruthy u.tier then pyLower (u.tier.getD "")
                  else "explorer"
      if tier = "explorer" then ["public"]
      else if tier = "insider" then ["public", "verified_only"]
      else if tier = "capital partner" then
        ["public", "verified_only", "pre_launch", "investor_only"]
      else ["public"]
    else ["public"]

/-- `DocumentService._get_allowed_access_levels`: the project owner and admin
get all three document levels; investors get a tier-based set; everyone else
gets public. -/
def document_allowed_access_levels (user : Option User) (project : Project) :
    List String :=
  match user with
  | none => ["public"]
  | some u =>
    if project.developer_id = u.id then
      ["public", "verified_only", "investor_only"]
    else if u.role = "admin" then
      ["public", "verified_only", "investor_only"]
    else if u.role = "investor" then
      let tier := if optStrTruthy u.tier then pyLower (u.tier.getD "")
                  else "explorer"
      if tier = "explorer" then ["public"]
      else if tier = "insider" then ["public", "verified_only"]
      else if tier = "capital partner" then
        ["public", "verified_only", "investor_only"]
      else ["public"]
    else ["public"]

/-- `ProjectSearchDTO` (the filter, sort and pagination parameters). -/
structure ProjectSearchDTO where
  country : Option String
  city : Option String
  property_type : Option String
  min_investment : Option ℚ
  max_investment : Option ℚ
  min_roi : Option ℚ
  tags : Option (List String)
  status : String
  sort_by : String
  sort_order : String
  page : Nat
  page_size : Nat
  deriving DecidableEq

/-- Whether `needle` occurs as a contiguous subsequence of `hay`. -/
def containsSeq (needle : List Char) : List Char → Bool
  | [] => needle.isEmpty
  | c :: rest => needle.isPrefixOf (c :: rest) || containsSeq needle rest

/-- SQL `column ILIKE concat of percent, needle, percent`: case-insensitive
substring match. -/
def ilikeContains (hay needle : String) : Bool :=
  containsSeq (pyLower needle).toList (pyLower hay).toList

/-- The conjunction of filters built by `ProjectRepository.search`. Falsy
(`None` or empty) parameters skip their filter; a NULL `roi_estimate` fails the
`min_roi` comparison as it does in SQL three-valued logic. -/
def searchMatches (f : ProjectSearchDTO) (accessLevels : List String)
    (p : Project) : Bool :=
  (if strTruthy f.status then p.status == f.status else true) &&
  (match f.country with
   | some c => if c ≠ "" then ilikeContains p.country c else true
   | none => true) &&
  (match f.city with
   | some c => if c ≠ "" then ilikeContains p.city c else true
   | none => true) &&
  (match f.property_type with
   | some t => if t ≠ "" then p.property_type == t else true
   | none => true) &&
  (match f.min_investment with
   | some m => decide (p.total_investment_required ≥ m)
   | none => true) &&
  (match f.max_investment with
   | some m => decide (p.total_investment_required ≤ m)
   | none => true) &&
  (match f.min_roi with
   | some m => (match p.roi_estimate with
                | some r => decide (r ≥ m)
                | none => false)
   | none => true) &&
  (match f.tags with
   | some ts => if ts.length > 0 then ts.any (fun t => p.tags.contains t)
                else true
   | none => true) &&
  (if accessLevels.length > 0 then accessLevels.contains p.access_level
   else true)

/-- The ORDER BY key of `ProjectRepository.search`: `investment_required` maps
to the investment column, unknown fields fall back to `visibility_score`
(the `getattr` default); NULL keys sort as the largest value. -/
def sortFieldVal (sortBy : String) (p : Project) : Option ℚ :=
  let field := if sortBy = "investment_required" then "total_investment_required"
               else sortBy
  if field = "total_investment_required" then some p.total_investment_required
  else if field = "created_at" then some (p.created_at : ℚ)
  else if field = "roi_estimate" then p.roi_estimate
  else some (p.visibility_score : ℚ)

/-- Comparison on optional sort keys with NULL treated as the largest value. -/
def nullLastLe (a b : Option ℚ) : Bool :=
  match a, b with
  | some x, some y => decide (x ≤ y)
  | some _, none => true
  | none, some _ => false
  | none, none => true

/-- The row ordering of `ProjectRepository.search` for the requested sort. -/
def projectSortLe (f : ProjectSearchDTO) (a b : Project) : Bool :=
  if f.sort_order = "desc" then
    nullLastLe (sortFieldVal f.sort_by b) (sortFieldVal f.sort_by a)
  else
    nullLastLe (sortFieldVal f.sort_by a) (sortFieldVal f.sort_by b)

/-- `ProjectRepository.search`: filter, count, sort, paginate. -/
def project_search (s : St) (f : ProjectSearchDTO)
    (accessLevels : List String) : List Project × Nat :=
  let filtered := s.projects.filter (searchMatches f accessLevels)
  let sorted := sortByLe (projectSortLe f) filtered
  (((sorted.drop ((f.page - 1) * f.page_size)).take f.page_size),
   filtered.length)

/-- `ProjectService.search_projects`: resolve the allowed access levels for the
viewer and delegate to the repository search. -/
def search_projects (s : St) (f : ProjectSearchDTO) (user : Option User) :
    List Project × Nat :=
  project_search s f (project_allowed_access_levels user)

/-- `ProjectRepository.update_status`: set the status column; stamp
`published_at` on a publish when the column is still NULL. -/
def project_update_status_row (clock : Nat) (newStatus : String)
    (p : Project) : Project :=
  { p with status := newStatus,
           published_at := if newStatus = "published" ∧ p.published_at = none
                           then some clock else p.published_at }

/-- `ProjectRepository.update_status` applied to the store. -/
def project_update_status (s : St) (projectId : Nat) (newStatus : String) : St :=
  { s with projects := s.projects.map (fun p =>
      if p.id == projectId then project_update_status_row s.clock newStatus p
      else p) }

/-- The `ProjectPublishDTO` status validator: only published or draft pass. -/
def projectPublishValid (st : String) : Bool :=
  st == "published" || st == "draft"

/-- `ProjectService.publish_project`: existence, ownership and subscription
checks, then an unconditional status update (no check of the current status). -/
def publish_project (s : St) (projectId : Nat) (developer : User)
    (newStatus : String) : Except ApiError (St × Project) :=
  match findProjectById s projectId with
  | none => .error ⟨404, "Project not found"⟩
  | some project =>
    if project.developer_id ≠ developer.id then
      .error ⟨403, "You can only publish your own projects"⟩
    else if ¬ (developer.subscription_status = "active" ∨
               developer.subscription_status = "trial") then
      .error ⟨402, "Active subscription required to publish projects"⟩
    else
      .ok (project_update_status s projectId newStatus,
           project_update_status_row s.clock newStatus project)

/-- `ProjectService.delete_project` with `ProjectRepository.delete`: existence
and ownership checks, then a soft delete setting the status to archived. -/
def delete_project (s : St) (projectId : Nat) (developer : User) :
    Except ApiError St :=
  match findProjectById s projectId with
  | none => .error ⟨404, "Project not found"⟩
  | some project =>
    if project.developer_id ≠ developer.id then
      .error ⟨403, "You can only delete your own projects"⟩
    else
      .ok { s with projects := s.projects.map (fun p =>
            if p.id == projectId then { p with status := "archived" } else p) }

/-! Concrete rows and stores used to evaluate the embedded operations. -/

/-- An investor with no tier set. -/
def uInv : User := ⟨1, "investor", none, "active"⟩

/-- An investor whose tier column holds the empty string. -/
def uInvEmptyTier : User := ⟨1, "investor", some "", "active"⟩

/-- A launch-tier developer. -/
def uDevLaunch : User := ⟨2, "developer", some "launch", "active"⟩

/-- An investor whose tier is the spec spelling capital_partner with underscore. -/
def uCapUnderscore : User := ⟨3, "investor", some "capital_partner", "active"⟩

/-- An insider-tier investor. -/
def uInsider : User := ⟨4, "investor", some "insider", "active"⟩

/-- A developer initiator for the lead-creation scenario of C9. -/
def uDevInitiator : User := ⟨9, "developer", some "growth", "active"⟩

/-- An elite developer who owns the archived project of C8. -/
def uDevSeven : User := ⟨7, "developer", some "elite", "active"⟩

/-- A project row with the given id, owner, status and access level. -/
def mkProjectRow (pid dev : Nat) (st al : String) : Project :=
  ⟨pid, dev, "T", st, al, "Portugal", "Lisbon", "residential",
   100, none, 0, [], 0, none⟩

/-- A lead creation request toward user 2 with no project or listing. -/
def dtoPlain : LeadCreateDTO := ⟨2, none, none, none⟩

/-- A store holding only the two users of the plain lead scenario. -/
def stPlain : St := ⟨[uInv, uDevLaunch], [], [], [], 100, 10, 1000, 0⟩

/-- The store of the empty-tier scenario: initiator tier is the empty string. -/
def stEmptyTier : St := ⟨[uInvEmptyTier, uDevLaunch], [], [], [], 100, 10, 1000, 0⟩

/-- The lead that the plain creation produces. -/
def leadPlain : Lead :=
  ⟨10, 1, 2, none, none, "active", "platform", "1.1.1.1", none,
   "explorer", "launch", 5⟩

/-- The store after the plain creation. -/
def stPlainAfter : St :=
  ⟨[uInv, uDevLaunch], [], [leadPlain], [], 100, 11, 1000, 0⟩

/-- The lead created in the empty-tier scenario. -/
def leadEmptyTier : Lead :=
  ⟨10, 1, 2, none, none, "active", "platform", "9.9.9.9", none,
   "explorer", "launch", 5⟩

/-- The store after the empty-tier creation. -/
def stEmptyTierAfter : St :=
  ⟨[uInvEmptyTier, uDevLaunch], [], [leadEmptyTier], [], 100, 11, 1000, 0⟩

/-- An existing lead between users 1 and 2 scoped to project 5. -/
def leadScoped : Lead :=
  ⟨7, 1, 2, some 5, none, "active", "platform", "8.8.8.8", none,
   "explorer", "launch", 5⟩

/-- A store already holding the project-scoped lead between users 1 and 2. -/
def stScoped : St := ⟨[uInv, uDevLaunch], [], [leadScoped], [], 100, 10, 1000, 0⟩

/-- Project 5 owned by developer 3, not by the recipient 2. -/
def projOfThird : Project := mkProjectRow 5 3 "published" "public"

/-- The store of the C9 scenario: recipient 2, project 5 owned by 3. -/
def stMismatch : St :=
  ⟨[uInv, uDevLaunch, ⟨3, "developer", some "launch", "active"⟩],
   [projOfThird], [], [], 100, 10, 1000, 0⟩

/-- The creation request of the C9 scenario: recipient 2, project 5. -/
def dtoMismatch : LeadCreateDTO := ⟨2, some 5, none, none⟩

/-- An archived project owned by developer 7. -/
def projArchived : Project := mkProjectRow 1 7 "archived" "public"

/-- The store of the C8 scenario. -/
def stArchived : St := ⟨[uDevSeven], [projArchived], [], [], 100, 10, 1000, 0⟩

/-- The archived project after the publish call flips it to published. -/
def projPublished : Project :=
  { projArchived with status := "published", published_at := some 0 }

/-- The store of the C8 scenario after the publish call. -/
def stArchivedAfter : St :=
  ⟨[uDevSeven], [projPublished], [], [], 100, 10, 1000, 0⟩

/-- A draft public project owned by developer 42. -/
def projDraftPublic : Project := mkProjectRow 6 42 "draft" "public"

/-- The store of the C10 scenario: one draft public project of developer 42. -/
def stDraft : St := ⟨[], [projDraftPublic], [], [], 100, 10, 1000, 0⟩

/-- A search request for draft projects with no other filters. -/
def dtoDraftSearch : ProjectSearchDTO :=
  ⟨none, none, none, none, none, none, none, "draft",
   "visibility_score", "desc", 1, 20⟩

/-- A search request for published projects with roi and country filters. -/
def dtoPublishedSearch : ProjectSearchDTO :=
  ⟨some "Portugal", none, none, none, none, some 10, none, "published",
   "visibility_score", "desc", 1, 20⟩

/-- A published public project with a set roi estimate. -/
def projPub1 : Project :=
  { mkProjectRow 1 2 "published" "public" with roi_estimate := some 15 }

/-- A store with published projects of every access level. -/
def stMixed : St :=
  ⟨[uDevLaunch],
   [projPub1,
    mkProjectRow 2 2 "published" "verified_only",
    mkProjectRow 3 2 "published" "pre_launch",
    { mkProjectRow 4 2 "published" "investor_only" with roi_estimate := some 20 }],
   [], [], 100, 10, 1000, 0⟩

/-- A store in which developer 2 already has three non-archived projects. -/
def stAtQuota : St :=
  ⟨[uDevLaunch],
   [mkProjectRow 1 2 "draft" "public",
    mkProjectRow 2 2 "published" "public",
    mkProjectRow 3 2 "draft" "public",
    mkProjectRow 4 2 "archived" "public"],
   [], [], 100, 10, 1000, 0⟩

/-- A plain project creation request. -/
def dtoNewProject : ProjectCreateDTO :=
  ⟨"T", "Portugal", "Lisbon", "residential", 100, none, "public", none⟩

/-! Helper lemmas shared by the claim theorems. -/

theorem mem_insertLe {α : Type} (le : α → α → Bool) (a x : α) (l : List α) :
    x ∈ insertLe le a l ↔ x = a ∨ x ∈ l := by
  induction l with
  | nil => simp [insertLe]
  | cons b bs ih =>
    simp only [insertLe]
    split
    · simp
    · simp [ih]
      tauto

theorem mem_sortByLe {α : Type} (le : α → α → Bool) (x : α) (l : List α) :
    x ∈ sortByLe le l ↔ x ∈ l := by
  induction l with
  | nil => simp [sortByLe]
  | cons a as ih => simp [sortByLe, mem_insertLe, ih]

theorem leadTupleFilter_eq_true (iid rid : Nat) (pid lid : Option Nat)
    (l : Lead) :
    leadTupleFilter iid rid pid lid l = true ↔
      l.initiator_id = iid ∧ l.recipient_id = rid ∧
      (optNatTruthy pid = true → l.project_id = pid) ∧
      (optNatTruthy lid = true → l.listing_id = lid) := by
  unfold leadTupleFilter
  cases hp : optNatTruthy pid <;> cases hq : optNatTruthy lid <;>
    simp [hp, hq, and_assoc]

theorem find_existing_lead_some_iff (leads : List Lead) (iid rid : Nat)
    (pid lid : Option Nat) :
    (∃ l, find_existing_lead leads iid rid pid lid = some l) ↔
      ∃ l ∈ leads, l.initiator_id = iid ∧ l.recipient_id = rid ∧
        (optNatTruthy pid = true → l.project_id = pid) ∧
        (optNatTruthy lid = true → l.listing_id = lid) := by
  unfold find_existing_lead
  rw [← Option.isSome_iff_exists, List.find?_isSome]
  constructor
  · rintro ⟨l, hmem, hp⟩
    exact ⟨l, hmem, (leadTupleFilter_eq_true iid rid pid lid l).mp hp⟩
  · rintro ⟨l, hmem, hp⟩
    exact ⟨l, hmem, (leadTupleFilter_eq_true iid rid pid lid l).mpr hp⟩

theorem create_lead_ok_elim {s : St} {data : LeadCreateDTO} {initiator : User}
    {ip ua : Option String} {s2 : St} {lead : Lead}
    (h : create_lead s data initiator ip ua = .ok (s2, lead)) :
    ∃ recipient, findUserById s data.recipient_id = some recipient ∧
      lead = mkLockedLead s data initiator recipient ip ua ∧
      s2.leads = s.leads ++ [lead] ∧
      s2.users = s.users ∧ s2.projects = s.projects := by
  unfold create_lead at h
  split at h
  · exact absurd h (by simp)
  split at h
  · exact absurd h (by simp)
  next recipient hrec =>
  split at h
  · exact absurd h (by simp)
  split at h
  · exact absurd h (by simp)
  split at h
  · exact absurd h (by simp)
  split at h
  · exact absurd h (by simp)
  split at h <;>
  · simp only [Except.ok.injEq, Prod.mk.injEq] at h
    obtain ⟨h1, h2⟩ := h
    subst h1
    subst h2
    exact ⟨recipient, hrec, rfl, rfl, rfl, rfl⟩

theorem send_message_ok_tables {s : St} {lid : Nat} {sender : User}
    {c : String} {ip : Option String} {s2 : St} {m : Message}
    (h : send_message s lid sender c ip = .ok (s2, m)) :
    s2.leads = s.leads ∧ s2.users = s.users := by
  unfold send_message at h
  split at h
  · exact absurd h (by simp)
  split at h
  · exact absurd h (by simp)
  simp only [Except.ok.injEq] at h
  have h1 : s2 = (create_message_internal s lid sender.id c ip).1 :=
    (congrArg Prod.fst h).symm
  subst h1
  exact ⟨rfl, rfl⟩

/-! C7: access denial versus absence for leads and their messages. -/

/-- C7: for lead fetch and message read, a missing lead id yields NOT_FOUND 404
and an existing lead viewed by a user who is neither initiator nor recipient
yields FORBIDDEN 403 with its permission detail; the two outcomes are distinct
errors and cannot be swapped. -/
theorem C7_forbidden_vs_missing (s : St) (leadId : Nat) (user : User) :
    (findLeadById s leadId = none →
      get_lead s leadId user = .error ⟨404, "Lead not found"⟩ ∧
      get_messages s leadId user = .error ⟨404, "Lead not found"⟩) ∧
    (∀ lead, findLeadById s leadId = some lead →
      lead.initiator_id ≠ user.id → lead.recipient_id ≠ user.id →
      get_lead s leadId user =
        .error ⟨403, "You don\x27t have permission to view this lead"⟩ ∧
      get_messages s leadId user =
        .error ⟨403, "You don\x27t have permission to view messages in this lead"⟩) ∧
    (∀ d1 d2 : String, ApiError.mk 403 d1 ≠ ApiError.mk 404 d2) := by
  refine ⟨fun h => ?_, fun lead h h1 h2 => ?_, fun d1 d2 => by simp⟩
  · simp [get_lead, get_messages, h]
  · simp [get_lead, get_messages, h, h1, h2]

/-- Witness for C7 at a concrete store: lead 7 exists with participants 1 and 2,
user 3 gets 403 on it, and the missing lead 99 gets 404. -/
theorem C7_forbidden_vs_missing_witness :
    get_lead stScoped 7 uCapUnderscore =
      .error ⟨403, "You don\x27t have permission to view this lead"⟩ ∧
    get_lead stScoped 99 uCapUnderscore = .error ⟨404, "Lead not found"⟩ :=
  ⟨((C7_forbidden_vs_missing stScoped 7 uCapUnderscore).2.1 leadScoped
      (by decide) (by decide) (by decide)).1,
   ((C7_forbidden_vs_missing stScoped 99 uCapUnderscore).1 (by decide)).1⟩

/-! C4: visibility monotonicity across investor tiers. -/

/-- C4 as stated is false on the code: the resolvers recognize only the tier
string capital partner with a space; an investor whose tier column holds the
spelling capital_partner is unrecognized, receives only public, and that set is
not a superset of the insider set. -/
theorem C4_counterexample :
    uCapUnderscore.tier = some "capital_partner" ∧
    uInsider.tier = some "insider" ∧
    project_allowed_access_levels (some uCapUnderscore) = ["public"] ∧
    project_allowed_access_levels (some uInsider) = ["public", "verified_only"] ∧
    ¬ (∀ x ∈ project_allowed_access_levels (some uInsider),
        x ∈ project_allowed_access_levels (some uCapUnderscore)) := by
  decide

/-- C4 (amended): with the capital-partner tier spelled capital partner as the
code stores it, the allowed access-level sets are monotone: anonymous and
explorer below insider below capital partner, independently for project
visibility and for document visibility. -/
theorem C4_monotonic_space_tier (u : User) (p : Project)
    (hrole : u.role = "investor") :
    (∀ x ∈ project_allowed_access_levels none,
       x ∈ project_allowed_access_levels (some { u with tier := some "explorer" })) ∧
    (∀ x ∈ project_allowed_access_levels (some { u with tier := some "explorer" }),
       x ∈ project_allowed_access_levels (some { u with tier := some "insider" })) ∧
    (∀ x ∈ project_allowed_access_levels (some { u with tier := some "insider" }),
       x ∈ project_allowed_access_levels (some { u with tier := some "capital partner" })) ∧
    (∀ x ∈ document_allowed_access_levels none p,
       x ∈ document_allowed_access_levels (some { u with tier := some "explorer" }) p) ∧
    (∀ x ∈ document_allowed_access_levels (some { u with tier := some "explorer" }) p,
       x ∈ document_allowed_access_levels (some { u with tier := some "insider" }) p) ∧
    (∀ x ∈ document_allowed_access_levels (some { u with tier := some "insider" }) p,
       x ∈ document_allowed_access_levels (some { u with tier := some "capital partner" }) p) := by
  obtain ⟨uid, urole, utier, usub⟩ := u
  simp only at hrole
  subst hrole
  by_cases hown : p.developer_id = uid <;>
    simp_all [project_allowed_access_levels, document_allowed_access_levels,
      optStrTruthy] <;> decide

/-- Witness for C4 (amended): verified_only, visible to an insider, is visible
to a capital partner. -/
theorem C4_monotonic_space_tier_witness :
    "verified_only" ∈
      project_allowed_access_levels (some { uInv with tier := some "capital partner" }) :=
  (C4_monotonic_space_tier uInv projDraftPublic rfl).2.2.1 "verified_only"
    (by decide)

/-! C9: developer-initiated lead toward a mismatched project. -/

/-- C9 as stated is false on the code: a developer caller is rejected with
FORBIDDEN 403 by the initiator-role check, which runs before the
project-ownership check, so the stated BAD_REQUEST outcome never occurs. -/
theorem C9_counterexample :
    uDevInitiator.role = "developer" ∧
    dtoMismatch.recipient_id = 2 ∧ dtoMismatch.project_id = some 5 ∧
    findProjectById stMismatch 5 = some projOfThird ∧
    projOfThird.developer_id = 3 ∧ (3 : Nat) ≠ 2 ∧
    create_lead stMismatch dtoMismatch uDevInitiator (some "3.3.3.3") none =
      .error ⟨403, "Only investors and buyers can initiate leads"⟩ ∧
    (ApiError.mk 403 "Only investors and buyers can initiate leads" ≠
      ApiError.mk 400 "Project does not belong to recipient") := by
  decide

/-- C9 (amended): for an investor or buyer initiator, a request naming a
recipient and a project owned by a different developer fails with BAD_REQUEST
400 and detail Project does not belong to recipient; a developer initiator is
instead rejected earlier with FORBIDDEN 403 by the role check. -/
theorem C9_role_then_ownership (s : St) (data : LeadCreateDTO)
    (initiator recipient : User) (project : Project) (ip ua : Option String)
    (hrole : initiator.role = "investor" ∨ initiator.role = "buyer")
    (hrec : findUserById s data.recipient_id = some recipient)
    (hrrole : recipient.role = "developer" ∨ recipient.role = "agency")
    (hpid : optNatTruthy data.project_id = true)
    (hproj : findProjectById s (data.project_id.getD 0) = some project)
    (hmis : project.developer_id ≠ recipient.id) :
    create_lead s data initiator ip ua =
      .error ⟨400, "Project does not belong to recipient"⟩ ∧
    ∀ init2 : User, init2.role = "developer" →
      create_lead s data init2 ip ua =
        .error ⟨403, "Only investors and buyers can initiate leads"⟩ := by
  have hpc : lead_project_check s data recipient =
      some ⟨400, "Project does not belong to recipient"⟩ := by
    simp [lead_project_check, hpid, hproj, hmis]
  constructor
  · unfold create_lead
    rw [if_neg (not_not_intro hrole), hrec]
    simp only []
    rw [if_neg (not_not_intro hrrole), hpc]
  · intro init2 h2
    unfold create_lead
    rw [if_pos (by simp [h2])]

/-- Witness for C9 (amended): the same store and request, called by an
investor, produce the BAD_REQUEST outcome. -/
theorem C9_role_then_ownership_witness :
    create_lead stMismatch dtoMismatch uInv (some "3.3.3.3") none =
      .error ⟨400, "Project does not belong to recipient"⟩ :=
  (C9_role_then_ownership stMismatch dtoMismatch uInv uDevLaunch projOfThird
    (some "3.3.3.3") none (Or.inl rfl) (by decide) (Or.inl rfl) (by decide)
    (by decide) (by decide)).1

/-! C1: tier and fee locking at lead creation. -/

/-- C1 as stated is false on the code: Python or treats an empty-string tier as
missing, so a succeeding creation whose initiator has the non-null tier value
empty string locks initiator_tier_locked to explorer instead of to that tier. -/
theorem C1_counterexample :
    uInvEmptyTier.tier = some "" ∧ (some "" : Option String) ≠ none ∧
    create_lead stEmptyTier dtoPlain uInvEmptyTier (some "9.9.9.9") none =
      .ok (stEmptyTierAfter, leadEmptyTier) ∧
    leadEmptyTier.initiator_tier_locked = "explorer" ∧
    leadEmptyTier.initiator_tier_locked ≠ "" := by
  decide

/-- C1 (amended): every succeeding create_lead locks initiator_tier_locked to
the initiator tier when that tier is non-null and non-empty and to explorer
otherwise, locks recipient_tier_locked likewise with default launch, and locks
success_fee_rate_locked to the case-insensitive TIER_FEE_RATES lookup on
recipient_tier_locked (launch 5, growth 4, elite 3, investor-side tiers 0),
defaulting to 5 for any string not in the table. -/
theorem C1_fee_and_tier_lock (s : St) (data : LeadCreateDTO) (initiator : User)
    (ip ua : Option String) (s2 : St) (lead : Lead)
    (h : create_lead s data initiator ip ua = .ok (s2, lead)) :
    (lead.initiator_tier_locked = match initiator.tier with
        | some t => if t = "" then "explorer" else t
        | none => "explorer") ∧
    (∃ recipient, findUserById s data.recipient_id = some recipient ∧
      lead.recipient_tier_locked = match recipient.tier with
        | some t => if t = "" then "launch" else t
        | none => "launch") ∧
    lead.success_fee_rate_locked =
      dictGetD TIER_FEE_RATES (pyLower lead.recipient_tier_locked) 5 ∧
    dictGetD TIER_FEE_RATES "launch" 5 = 5 ∧
    dictGetD TIER_FEE_RATES "growth" 5 = 4 ∧
    dictGetD TIER_FEE_RATES "elite" 5 = 3 ∧
    (∀ t : String, TIER_FEE_RATES.find? (fun kv => kv.1 == pyLower t) = none →
      dictGetD TIER_FEE_RATES (pyLower t) 5 = 5) := by
  obtain ⟨recipient, hrec, hlead, -, -, -⟩ := create_lead_ok_elim h
  subst hlead
  refine ⟨rfl, ⟨recipient, hrec, rfl⟩, rfl, by decide, by decide, by decide,
    fun t ht => ?_⟩
  simp [dictGetD, ht]

/-- Witness for C1 (amended) at the concrete plain creation. -/
theorem C1_fee_and_tier_lock_witness :
    leadPlain.initiator_tier_locked = (match uInv.tier with
      | some t => if t = "" then "explorer" else t
      | none => "explorer") :=
  (C1_fee_and_tier_lock stPlain dtoPlain uInv (some "1.1.1.1") none
    stPlainAfter leadPlain (by decide)).1

/-! C2: the locked lead fields are write-once. -/

/-- C2: every operation that can follow a lead creation (a lead status update,
a message send, a change to a user tier, another lead creation) leaves each
stored lead's initiator_tier_locked, recipient_tier_locked,
success_fee_rate_locked and first_contact_ip unchanged; and concretely, the
lead created while the recipient tier is launch (locked rate 5) still carries
rate 5 after the recipient's tier is changed to elite. -/
theorem C2_locked_fields_frame :
    (∀ (op : LeadOp) (s : St) (l : Lead), l ∈ s.leads →
      ∃ l2, l2 ∈ (applyOp s op).leads ∧ l2.id = l.id ∧
        l2.initiator_tier_locked = l.initiator_tier_locked ∧
        l2.recipient_tier_locked = l.recipient_tier_locked ∧
        l2.success_fee_rate_locked = l.success_fee_rate_locked ∧
        l2.first_contact_ip = l.first_contact_ip) ∧
    (create_lead stPlain dtoPlain uInv (some "1.1.1.1") none =
        .ok (stPlainAfter, leadPlain) ∧
      uDevLaunch.tier = some "launch" ∧
      leadPlain.success_fee_rate_locked = 5 ∧
      (set_user_tier stPlainAfter 2 (some "elite")).leads.map
        (fun l => l.success_fee_rate_locked) = [5] ∧
      findUserById (set_user_tier stPlainAfter 2 (some "elite")) 2 =
        some { uDevLaunch with tier := some "elite" }) := by
  constructor
  · intro op s l hl
    cases op with
    | updateStatus lid st =>
      refine ⟨if l.id == lid then { l with status := st } else l, ?_, ?_⟩
      · simpa only [applyOp, lead_update_status] using
          List.mem_map_of_mem
            (fun l => if l.id == lid then { l with status := st } else l) hl
      · split <;> simp
    | sendMsg lid sender content ip =>
      refine ⟨l, ?_, rfl, rfl, rfl, rfl, rfl⟩
      simp only [applyOp]
      split
      · next s2 m heq => rw [(send_message_ok_tables heq).1]; exact hl
      · exact hl
    | setTier uid t =>
      exact ⟨l, hl, rfl, rfl, rfl, rfl, rfl⟩
    | create data initiator ip ua =>
      refine ⟨l, ?_, rfl, rfl, rfl, rfl, rfl⟩
      simp only [applyOp]
      split
      · next s2 l2 heq =>
        obtain ⟨-, -, -, hleads, -, -⟩ := create_lead_ok_elim heq
        rw [hleads]
        exact List.mem_append_left _ hl
      · exact hl
  · decide

/-- Witness for C2: the frame property applied at the concrete store after the
plain creation, for the operation that changes the recipient's tier to elite. -/
theorem C2_locked_fields_frame_witness :
    ∃ l2, l2 ∈ (applyOp stPlainAfter (.setTier 2 (some "elite"))).leads ∧
      l2.id = leadPlain.id ∧
      l2.initiator_tier_locked = leadPlain.initiator_tier_locked ∧
      l2.recipient_tier_locked = leadPlain.recipient_tier_locked ∧
      l2.success_fee_rate_locked = leadPlain.success_fee_rate_locked ∧
      l2.first_contact_ip = leadPlain.first_contact_ip :=
  C2_locked_fields_frame.1 (.setTier 2 (some "elite")) stPlainAfter leadPlain
    (by decide)

/-! C3: duplicate-lead detection and the exact-tuple claim. -/

/-- C3 as stated is false on the code: find_existing_lead applies the
project_id and listing_id filters only when the request supplies a truthy
value, so a request with project_id None collides with the existing lead
scoped to project 5 and is rejected with CONFLICT even though the two tuples
differ in the project field. -/
theorem C3_counterexample :
    stScoped.leads = [leadScoped] ∧ leadScoped.project_id = some 5 ∧
    dtoPlain.project_id = none ∧ dtoPlain.listing_id = none ∧
    leadScoped.initiator_id = uInv.id ∧
    leadScoped.recipient_id = dtoPlain.recipient_id ∧
    create_lead stScoped dtoPlain uInv (some "2.2.2.2") none =
      .error ⟨409, "Lead already exists between these users for this project/listing"⟩ := by
  decide

/-- C3 (amended): when the role, recipient and project checks pass, create_lead
returns CONFLICT 409 exactly when some stored lead carries the same initiator
and recipient ids and agrees with the request on each of project_id and
listing_id that the request actually supplies (non-null and non-zero); a field
the request omits is not compared, so omitting project_id collides with any
existing lead between the two users, whatever its project_id. -/
theorem C3_conflict_iff (s : St) (data : LeadCreateDTO)
    (initiator recipient : User) (ip ua : Option String)
    (hrole : initiator.role = "investor" ∨ initiator.role = "buyer")
    (hrec : findUserById s data.recipient_id = some recipient)
    (hrrole : recipient.role = "developer" ∨ recipient.role = "agency")
    (hpc : lead_project_check s data recipient = none) :
    create_lead s data initiator ip ua =
        .error ⟨409, "Lead already exists between these users for this project/listing"⟩
      ↔ ∃ l ∈ s.leads, l.initiator_id = initiator.id ∧
          l.recipient_id = recipient.id ∧
          (optNatTruthy data.project_id = true → l.project_id = data.project_id) ∧
          (optNatTruthy data.listing_id = true → l.listing_id = data.listing_id) := by
  unfold create_lead
  rw [if_neg (not_not_intro hrole), hrec]
  simp only []
  rw [if_neg (not_not_intro hrrole), hpc]
  simp only []
  cases hfind : find_existing_lead s.leads initiator.id recipient.id
      data.project_id data.listing_id with
  | some l =>
    simp only [hfind]
    constructor
    · intro _
      exact (find_existing_lead_some_iff s.leads initiator.id recipient.id
        data.project_id data.listing_id).mp ⟨l, hfind⟩
    · intro _
      trivial
  | none =>
    simp only [hfind]
    constructor
    · intro h
      exfalso
      split at h <;> simp at h
    · intro hex
      exfalso
      have h2 : ∃ l, find_existing_lead s.leads initiator.id recipient.id
          data.project_id data.listing_id = some l :=
        (find_existing_lead_some_iff s.leads initiator.id recipient.id
          data.project_id data.listing_id).mpr hex
      rw [hfind] at h2
      simp at h2

/-- Witness for C3 (amended): the concrete colliding request is rejected with
CONFLICT through the characterization. -/
theorem C3_conflict_iff_witness :
    create_lead stScoped dtoPlain uInv (some "2.2.2.2") none =
      .error ⟨409, "Lead already exists between these users for this project/listing"⟩ :=
  (C3_conflict_iff stScoped dtoPlain uInv uDevLaunch (some "2.2.2.2") none
    (Or.inl rfl) (by decide) (Or.inl rfl) (by decide)).mpr
    ⟨leadScoped, by decide, by decide, by decide, by decide, by decide⟩

/-! C5: tier-based project quota enforcement. -/

/-- C5: project creation is denied for quota exactly when the count of the
developer's non-archived projects reaches the tier quota, with quota launch 3,
growth 10, and 3 for a missing or unrecognized tier; an elite developer is
never denied for quota; the denial is a 403 whose message names the tier and
the numeric quota; and create_project surfaces exactly that denial once the
role and subscription checks pass. -/
theorem C5_quota_denial (s : St) (developer : User) :
    (developerEffTier developer = "elite" →
      check_project_quota s developer = none) ∧
    (∀ q, quotaGetD (developerEffTier developer) = some q →
      ((check_project_quota s developer).isSome ↔
        count_by_developer s developer.id ≥ q)) ∧
    (quotaGetD "launch" = some 3 ∧ quotaGetD "growth" = some 10 ∧
      quotaGetD "elite" = none) ∧
    (∀ t : String, t ≠ "launch" → t ≠ "growth" → t ≠ "elite" →
      quotaGetD t = some 3) ∧
    (∀ q e, quotaGetD (developerEffTier developer) = some q →
      check_project_quota s developer = some e →
      e.status_code = 403 ∧
      e.detail = quotaDeniedDetail (developerEffTier developer) q) ∧
    (∀ t q, quotaDeniedDetail t q = "Project quota exceeded. Your "
        ++ pyCapitalize t ++ " tier allows " ++ toString q
        ++ " projects. Upgrade to create more.") ∧
    (∀ (data : ProjectCreateDTO) e, developer.role = "developer" →
      (developer.subscription_status = "active" ∨
        developer.subscription_status = "trial") →
      check_project_quota s developer = some e →
      create_project s developer data = .error e) := by
  have hqe : quotaGetD "elite" = none := by decide
  refine ⟨?_, ?_, ⟨by decide, by decide, hqe⟩, ?_, ?_, fun t q => rfl, ?_⟩
  · intro h
    simp only [check_project_quota, h, hqe]
  · intro q hq
    simp only [check_project_quota, hq]
    split
    next hge => simp [hge]
    next hge => simp [hge]
  · intro t h1 h2 h3
    have e1 : ("launch" == t) = false := beq_eq_false_iff_ne.mpr (Ne.symm h1)
    have e2 : ("growth" == t) = false := beq_eq_false_iff_ne.mpr (Ne.symm h2)
    have e3 : ("elite" == t) = false := beq_eq_false_iff_ne.mpr (Ne.symm h3)
    simp [quotaGetD, TIER_QUOTAS, List.find?, e1, e2, e3]
  · intro q e hq he
    simp only [check_project_quota, hq] at he
    split at he
    · cases he
      exact ⟨rfl, rfl⟩
    · exact absurd he (by simp)
  · intro data e hrole hsub he
    unfold create_project
    rw [if_neg (not_not_intro hrole), if_neg (not_not_intro hsub), he]

/-- Witness for C5 at a launch developer who already has three non-archived
projects: the quota check is a denial. -/
theorem C5_quota_denial_witness :
    (check_project_quota stAtQuota uDevLaunch).isSome :=
  ((C5_quota_denial stAtQuota uDevLaunch).2.1 3 (by decide)).mpr (by decide)

/-! C6: a default-tier investor sees only public projects in search. -/

/-- C6: every project returned by a search performed by an investor whose tier
is None with status filter published has access level public, for every store
and every combination of the remaining filters, min_roi and country included. -/
theorem C6_default_tier_search_public (s : St) (f : ProjectSearchDTO) (u : User)
    (hrole : u.role = "investor") (htier : u.tier = none)
    (_hstatus : f.status = "published") :
    ∀ p ∈ (search_projects s f (some u)).1, p.access_level = "public" := by
  intro p hp
  have hlv : project_allowed_access_levels (some u) = ["public"] := by
    simp [project_allowed_access_levels, hrole, htier, optStrTruthy]
  simp only [search_projects, project_search, hlv] at hp
  have h1 : p ∈ s.projects.filter (searchMatches f ["public"]) :=
    (mem_sortByLe _ _ _).mp
      (List.drop_subset _ _ (List.take_subset _ _ hp))
  have h2 := (List.mem_filter.mp h1).2
  simp only [searchMatches, Bool.and_eq_true] at h2
  have h3 := h2.2
  simpa using h3

/-- Witness for C6: the concrete mixed store returns the public published
project to the tierless investor, and its access level is public. -/
theorem C6_default_tier_search_public_witness :
    projPub1.access_level = "public" :=
  C6_default_tier_search_public stMixed dtoPublishedSearch uInv rfl rfl rfl
    projPub1 (by decide)

/-! C8: archived is claimed terminal, but publish has no status guard. -/

/-- C8 is contradicted by the code: publish_project checks existence, ownership
and subscription but never the current status, so the owner of an archived
project can submit the DTO-valid status published and the archived project
becomes published, refuting that archived is a terminal state. -/
theorem C8_archived_not_terminal :
    projArchived.status = "archived" ∧
    projectPublishValid "published" = true ∧
    publish_project stArchived 1 uDevSeven "published" =
      .ok (stArchivedAfter, projPublished) ∧
    projPublished.status = "published" ∧
    (findProjectById stArchivedAfter 1).map (fun p => p.status) =
      some "published" := by
  decide

/-! C10: the status filter is applied verbatim for every viewer. -/

/-- C10: the search predicate never reads a project's developer_id, so
ownership cannot restrict search results; every returned project matches the
caller-supplied status filter verbatim; and concretely an anonymous viewer
searching status draft receives another developer's draft project because its
public access level lies in the anonymous allowed set. -/
theorem C10_status_filter_verbatim :
    (∀ (f : ProjectSearchDTO) (levels : List String) (p : Project) (d : Nat),
      searchMatches f levels { p with developer_id := d } =
        searchMatches f levels p) ∧
    (∀ (s : St) (f : ProjectSearchDTO) (user : Option User),
      ∀ p ∈ (search_projects s f user).1,
        strTruthy f.status = true → p.status = f.status) ∧
    (project_allowed_access_levels none = ["public"] ∧
      projDraftPublic.developer_id = 42 ∧ projDraftPublic.status = "draft" ∧
      projDraftPublic.access_level = "public" ∧
      dtoDraftSearch.status = "draft" ∧
      (search_projects stDraft dtoDraftSearch none).1 = [projDraftPublic]) := by
  refine ⟨fun f levels p d => rfl, ?_, by decide⟩
  intro s f user p hp hst
  simp only [search_projects, project_search] at hp
  have h1 : p ∈ s.projects.filter
      (searchMatches f (project_allowed_access_levels user)) :=
    (mem_sortByLe _ _ _).mp
      (List.drop_subset _ _ (List.take_subset _ _ hp))
  have h2 := (List.mem_filter.mp h1).2
  simp only [searchMatches, Bool.and_eq_true] at h2
  have h3 := h2.1.1.1.1.1.1.1.1
  simp [hst] at h3
  exact h3

/-- Witness for C10: the draft project returned to the anonymous viewer
matches the requested draft status. -/
theorem C10_status_filter_verbatim_witness :
    projDraftPublic.status = dtoDraftSearch.status :=
  C10_status_filter_verbatim.2.1 stDraft dtoDraftSearch none projDraftPublic
    (by decide) (by decide)

end Elyterra
